import Mathlib

/-!
Verification of the lldb attach-orchestration scripts of the
sourcekit-bazel-bsp repository.

The repository drives an lldb debugging session for Bazel-built binaries.
Its core is a short, strictly linear sequence of lldb directives issued
through a `run_command` helper:

* `Example/scripts/lldb_inject_settings.py` defines `run_command`
  (print the directive, hand it to the lldb command interpreter, print the
  output on success, print the error to stderr and raise `RuntimeError` on
  failure), exits early with status 0 when the launch-info file is absent,
  and otherwise issues the working-directory directive and the two
  source-map directives.
* `Example/scripts/lldb_attach.py` issues working-directory,
  insert-before source-map, append source-map, then platform dispatch and
  process attach.
* `ide/vscode/scripts/lldb_attach.py` issues working-directory,
  append source-map, insert-before source-map, a packet-timeout tweak,
  then platform dispatch and process attach.
* `ide/vscode/scripts/lldb_kill_app.py` converts the persisted pid with
  `int(...)` and sends SIGKILL inside a `try/except Exception: pass`.

Each directive a script hands to `run_command` is modelled as a `Cmd`;
`Cmd.render` produces the exact command text the Python code formats.
The scripts' module bodies become Lean functions from their inputs
(the values loaded from the launch-info and build-location files, and an
oracle describing the engine's success/failure behaviour) to the list of
issued directives and the script outcome.
-/

/-- One lldb directive handed to `run_command`, one constructor per
`run_command` call site in the scripts, carrying the interpolated values. -/
inductive Cmd where
  | platformSettingsW (dir : String)
  | sourceMapInsertBefore0 (fromDir toDir : String)
  | sourceMapAppend (fromDir toDir : String)
  | packetTimeout (seconds : Nat)
  | deviceSelect (udid : String)
  | platformSelect (tag : String)
  | platformConnect (udid : String)
  | deviceProcessAttach (pid : String)
  | processAttach (pid : String)
  deriving DecidableEq, Repr

/-- The exact command text the Python f-strings produce for each call site. -/
def Cmd.render : Cmd → String
  | Cmd.platformSettingsW dir => "platform settings -w \"" ++ dir ++ "\""
  | Cmd.sourceMapInsertBefore0 f t =>
      "settings insert-before target.source-map 0 \"" ++ f ++ "\" \"" ++ t ++ "\""
  | Cmd.sourceMapAppend f t =>
      "settings append target.source-map \"" ++ f ++ "\" \"" ++ t ++ "\""
  | Cmd.packetTimeout n =>
      "settings set plugin.process.gdb-remote.packet-timeout " ++ toString n
  | Cmd.deviceSelect u => "device select " ++ u
  | Cmd.platformSelect tg => "platform select " ++ tg
  | Cmd.platformConnect u => "platform connect " ++ u
  | Cmd.deviceProcessAttach p => "device process attach --pid " ++ p
  | Cmd.processAttach p => "process attach --pid " ++ p

/-- Directive categories used by the spec's ordering requirements. -/
inductive CmdKind where
  | workingDir
  | sourceMap
  | timeoutTweak
  | selectConnect
  | processAttach
  deriving DecidableEq, Repr

/-- Category of each directive. -/
def Cmd.kind : Cmd → CmdKind
  | Cmd.platformSettingsW _ => CmdKind.workingDir
  | Cmd.sourceMapInsertBefore0 _ _ => CmdKind.sourceMap
  | Cmd.sourceMapAppend _ _ => CmdKind.sourceMap
  | Cmd.packetTimeout _ => CmdKind.timeoutTweak
  | Cmd.deviceSelect _ => CmdKind.selectConnect
  | Cmd.platformSelect _ => CmdKind.selectConnect
  | Cmd.platformConnect _ => CmdKind.selectConnect
  | Cmd.deviceProcessAttach _ => CmdKind.processAttach
  | Cmd.processAttach _ => CmdKind.processAttach

/-- Position of a category in the phase order the spec mandates
(working dir, source map, optional timeout tweak, select/connect, attach). -/
def CmdKind.rank : CmdKind → Nat
  | CmdKind.workingDir => 0
  | CmdKind.sourceMap => 1
  | CmdKind.timeoutTweak => 2
  | CmdKind.selectConnect => 3
  | CmdKind.processAttach => 4

/-- Directive sequence of `src/Example/scripts/lldb_attach.py`, as a function
of the values its module body loads: the output base from
`load_output_base()`, and platform, udid and pid from `load_launch_info()`
(`debug_pid = str(launch_info["pid"])`, so the pid is carried as a string). -/
def exampleAttachCmds (outputBase devicePlatform deviceUdid debugPid : String) :
    List Cmd :=
  [Cmd.platformSettingsW (outputBase ++ "/execroot/_main"),
   Cmd.sourceMapInsertBefore0 ("./external/") (outputBase ++ "/external/"),
   Cmd.sourceMapAppend ("./") (outputBase ++ "/execroot/_main/")]
  ++ (if devicePlatform = "device" then
        [Cmd.deviceSelect deviceUdid]
      else
        [Cmd.platformSelect devicePlatform, Cmd.platformConnect deviceUdid])
  ++ (if devicePlatform = "device" then
        [Cmd.deviceProcessAttach debugPid]
      else
        [Cmd.processAttach debugPid])

/-- Directive sequence of `src/ide/vscode/scripts/lldb_attach.py`, as a
function of the values its module body loads: output base and execution root
from `load_bazel_info()`, the workspace root from `os.getcwd()`, and
platform, udid and pid from `load_launch_info()`. Note the module body
issues the append source-map directive before the insert-before one. -/
def vscodeAttachCmds (outputBase executionRoot workspaceRoot devicePlatform
    deviceUdid debugPid : String) : List Cmd :=
  [Cmd.platformSettingsW executionRoot,
   Cmd.sourceMapAppend (".") workspaceRoot,
   Cmd.sourceMapInsertBefore0 ("./external/") (outputBase ++ "/external/"),
   Cmd.packetTimeout 300]
  ++ (if devicePlatform = "device" then
        [Cmd.deviceSelect deviceUdid]
      else
        [Cmd.platformSelect devicePlatform, Cmd.platformConnect deviceUdid])
  ++ (if devicePlatform = "device" then
        [Cmd.deviceProcessAttach debugPid]
      else
        [Cmd.processAttach debugPid])

/-- Directive sequence of `src/Example/scripts/lldb_inject_settings.py`
(the part after the launch-info checks): working directory plus the two
source-map directives. -/
def injectSettingsCmds (outputBase : String) : List Cmd :=
  [Cmd.platformSettingsW (outputBase ++ "/execroot/_main"),
   Cmd.sourceMapInsertBefore0 ("./external/") (outputBase ++ "/external/"),
   Cmd.sourceMapAppend ("./") (outputBase ++ "/execroot/_main/")]

/-- Result object lldb's `HandleCommand` fills in: `Succeeded()`,
`GetOutput()` and `GetError()` (empty string standing for absent text). -/
structure SBCommandReturnObject where
  succeeded : Bool
  output : String
  error : String
  deriving DecidableEq, Repr

/-- Observable effect of one `run_command` call in
`src/Example/scripts/lldb_inject_settings.py`: lines printed to stdout,
lines printed to stderr, and the message of the raised `RuntimeError`
(if any). -/
structure RunEffect where
  stdout : List String
  stderr : List String
  raised : Option String
  deriving DecidableEq, Repr

/-- The fixed message `run_command` raises with on failure. -/
def runCommandFailMsg : String :=
  "Command failed. See above for any error messages."

/-- The `run_command` helper of
`src/Example/scripts/lldb_inject_settings.py`: print `(lldb) ` plus the
command, hand the command to the interpreter (whose result is the given
`SBCommandReturnObject`), then on success print the output when non-empty,
and on failure print the error to stderr when non-empty and raise
`RuntimeError` with the fixed message `runCommandFailMsg`. -/
def run_command (command : String) (result : SBCommandReturnObject) :
    RunEffect :=
  if result.succeeded then
    { stdout := ("(lldb) " ++ command) ::
        (if result.output = "" then [] else [result.output]),
      stderr := [],
      raised := none }
  else
    { stdout := [("(lldb) " ++ command)],
      stderr := (if result.error = "" then [] else [result.error]),
      raised := some runCommandFailMsg }

/-- Run a list of directives in order through `run_command`, where `engine`
gives the interpreter's result for each command text. A raised
`RuntimeError` propagates out of the module body, so execution stops at the
first failing directive. Returns the directives actually handed to the
engine (the failing one included) and whether the whole list completed
without raising. -/
def runCmds (engine : String → SBCommandReturnObject) : List Cmd → List Cmd × Bool
  | [] => ([], true)
  | c :: rest =>
    match (run_command (Cmd.render c) (engine (Cmd.render c))).raised with
    | none =>
      let r := runCmds engine rest
      (c :: r.1, r.2)
    | some _ => ([c], false)

/-- Launch-info record as parsed from the persisted JSON file: the values
(if present) of the `platform`, `udid` and `pid` keys; the pid is carried
as the string `str(launch_info["pid"])` produces. -/
structure LaunchRecord where
  platform : Option String
  udid : Option String
  pid : Option String
  deriving DecidableEq, Repr

/-- Field accesses of `src/Example/scripts/lldb_inject_settings.py` lines
35-38: `launch_info["platform"]`, `launch_info["udid"]`,
`launch_info["pid"]` in that order; a missing key raises `KeyError`,
any present value (empty strings included) is accepted. -/
def loadLaunchContext (r : LaunchRecord) :
    Except String (String × String × String) :=
  match r.platform with
  | none => Except.error ("KeyError: platform")
  | some p =>
    match r.udid with
    | none => Except.error ("KeyError: udid")
    | some u =>
      match r.pid with
      | none => Except.error ("KeyError: pid")
      | some i => Except.ok (p, u, i)

/-- Whether a loader result is a successfully constructed launch context. -/
def loadedOk (r : Except String (String × String × String)) : Bool :=
  match r with
  | Except.ok _ => true
  | Except.error _ => false

/-- Outcome of running a script's module body: `exited code issued` models
an explicit `os._exit(code)`, `finished issued` models falling off the end
(process exit status 0), `raised issued msg` models an uncaught exception.
`issued` is the list of directives handed to the engine before that point. -/
inductive ScriptOutcome where
  | exited (code : Nat) (issued : List Cmd)
  | finished (issued : List Cmd)
  | raised (issued : List Cmd) (msg : String)
  deriving DecidableEq, Repr

/-- Module body of `src/Example/scripts/lldb_inject_settings.py`:
if the launch-info file does not exist, log and `os._exit(0)` having
issued no directive; otherwise read the output base, parse the launch
info (a missing key raises `KeyError`), and issue the three settings
directives through `run_command`, stopping at the first failure. -/
def injectSettingsScript (launchInfoExists : Bool) (outputBase : String)
    (rec : LaunchRecord) (engine : String → SBCommandReturnObject) :
    ScriptOutcome :=
  if launchInfoExists then
    match loadLaunchContext rec with
    | Except.error m => ScriptOutcome.raised [] m
    | Except.ok _ =>
      let r := runCmds engine (injectSettingsCmds outputBase)
      if r.2 then ScriptOutcome.finished r.1
      else ScriptOutcome.raised r.1 runCommandFailMsg
  else
    ScriptOutcome.exited 0 []

/-- Outcome of the kill script: `returned` when the module body runs to the
end, `raisedValueError` when `int(...)` raises on an unparseable pid. -/
inductive KillOutcome where
  | returned
  | raisedValueError
  deriving DecidableEq, Repr

/-- Decimal digit run accepted by Python's `int`, underscores allowed only
between digits: every character is a digit or an underscore, the run starts
and ends with a digit, and no two underscores are adjacent. -/
def pyDigitRun (cs : List Char) : Bool :=
  (match cs.head? with | some c => c.isDigit | none => false) &&
  (match cs.getLast? with | some c => c.isDigit | none => false) &&
  cs.all (fun c => c.isDigit || c == '_') &&
  (cs.zip cs.tail).all (fun p => !(p.1 == '_' && p.2 == '_'))

/-- Numeric value of a digit run (underscores removed beforehand). -/
def digitsVal (cs : List Char) : Nat :=
  cs.foldl (fun a c => a * 10 + (c.toNat - 48)) 0

/-- Sign handling of Python's `int`: an optional leading `+` or `-`
followed by a digit run. -/
def pyIntCore (cs : List Char) : Option Int :=
  match cs with
  | '-' :: rest =>
    if pyDigitRun rest then
      some (-(Int.ofNat (digitsVal (rest.filter (fun c => c != '_')))))
    else none
  | '+' :: rest =>
    if pyDigitRun rest then
      some (Int.ofNat (digitsVal (rest.filter (fun c => c != '_'))))
    else none
  | _ =>
    if pyDigitRun cs then
      some (Int.ofNat (digitsVal (cs.filter (fun c => c != '_'))))
    else none

/-- Leading and trailing whitespace removal, as Python's `int` applies to
its argument before parsing. -/
def trimChars (cs : List Char) : List Char :=
  ((cs.dropWhile Char.isWhitespace).reverse.dropWhile Char.isWhitespace).reverse

/-- Python `int(s)` on a decimal string: surrounding whitespace is
stripped, then an optional sign and a digit run; `none` models the
`ValueError` raised on anything else. -/
def pyInt (s : String) : Option Int :=
  pyIntCore (trimChars s.toList)

/-- The `try: os.kill(debug_pid, signal.SIGKILL) except Exception: pass`
block of `src/ide/vscode/scripts/lldb_kill_app.py`: whatever the host's
signal delivery does (`kill` returns `ok` or an exception text), the block
returns. -/
def killAndSwallow (kill : Int → Except String Unit) (pid : Int) :
    KillOutcome :=
  match kill pid with
  | Except.ok _ => KillOutcome.returned
  | Except.error _ => KillOutcome.returned

/-- Module body of `src/ide/vscode/scripts/lldb_kill_app.py` after
`load_launch_info()`: `debug_pid = int(launch_info["pid"])` runs outside
any handler, so an unparseable pid raises; only the `os.kill` call is
wrapped in the swallowing `try/except`. -/
def lldb_kill_app (pidField : String) (kill : Int → Except String Unit) :
    KillOutcome :=
  match pyInt pidField with
  | none => KillOutcome.raisedValueError
  | some pid => killAndSwallow kill pid

/-- A source-path substitution rule of the engine's
`target.source-map` list. -/
structure SourceMapRule where
  fromDir : String
  toDir : String
  deriving DecidableEq, Repr

/-- Modelled from the spec: the debugging engine's rule-list semantics of
`settings insert-before target.source-map 0` — the engine itself is outside
this repository ("treated as an opaque command executor"); per the spec the
directive inserts the rule before any existing rules, at position 0. -/
def insertBeforeZero (r : SourceMapRule) (rules : List SourceMapRule) :
    List SourceMapRule :=
  r :: rules

/-- Modelled from the spec: the debugging engine's rule-list semantics of
`settings append target.source-map` — the rule is appended after all
existing rules. -/
def appendRule (r : SourceMapRule) (rules : List SourceMapRule) :
    List SourceMapRule :=
  rules ++ [r]

/-- Index of the first occurrence of a rule in a rule list (length when
absent); the engine evaluates rules first-match-wins in index order. -/
def ruleIdx (r : SourceMapRule) : List SourceMapRule → Nat
  | [] => 0
  | x :: rest => if x = r then 0 else ruleIdx r rest + 1

/-- Whether a directive is the insert-before source-map directive. -/
def isInsertCmd : Cmd → Bool
  | Cmd.sourceMapInsertBefore0 _ _ => true
  | _ => false

/-- Whether a directive is the append source-map directive. -/
def isAppendCmd : Cmd → Bool
  | Cmd.sourceMapAppend _ _ => true
  | _ => false

/-- Whether a directive is a platform-select or platform-connect
directive. -/
def isPlatformSelCmd : Cmd → Bool
  | Cmd.platformSelect _ => true
  | Cmd.platformConnect _ => true
  | _ => false

/-- Index of the first directive satisfying `p` (length when none does). -/
def firstIdx (p : Cmd → Bool) : List Cmd → Nat
  | [] => 0
  | c :: rest => if p c then 0 else firstIdx p rest + 1

/-- Every directive of category `a` in `l` sits strictly before every
directive of category `b`. -/
def kindBefore (l : List Cmd) (a b : CmdKind) : Prop :=
  ∀ i j, (hi : i < l.length) → (hj : j < l.length) →
    (l.get ⟨i, hi⟩).kind = a → (l.get ⟨j, hj⟩).kind = b → i < j

/-- Directive `a` occurs in `l` immediately followed by directive `b`. -/
def adjPair (l : List Cmd) (a b : Cmd) : Prop :=
  ∃ s t, l = s ++ a :: b :: t

/-- Directives `a`, `b`, `c` occur consecutively in `l`, in that order. -/
def adjTriple (l : List Cmd) (a b c : Cmd) : Prop :=
  ∃ s t, l = s ++ a :: b :: c :: t

/-- Category ranks are monotone along the directive list: the phases of
the sequence appear in spec order. -/
def rankOrdered (l : List Cmd) : Prop :=
  List.Pairwise (fun a b => (Cmd.kind a).rank ≤ (Cmd.kind b).rank) l

/-- The Example attach sequence is phase-ordered, for every loaded
context. -/
lemma rankOrdered_exampleAttach (ob p u pid : String) :
    rankOrdered (exampleAttachCmds ob p u pid) := by
  by_cases h : p = "device" <;>
    simp [rankOrdered, exampleAttachCmds, h, List.pairwise_cons,
      Cmd.kind, CmdKind.rank]

/-- The vscode attach sequence is phase-ordered, for every loaded
context. -/
lemma rankOrdered_vscodeAttach (ob er wr p u pid : String) :
    rankOrdered (vscodeAttachCmds ob er wr p u pid) := by
  by_cases h : p = "device" <;>
    simp [rankOrdered, vscodeAttachCmds, h, List.pairwise_cons,
      Cmd.kind, CmdKind.rank]

/-- In a phase-ordered list, every directive of a lower-ranked category
sits strictly before every directive of a higher-ranked category. -/
lemma kindBefore_of_rankOrdered (l : List Cmd) (a b : CmdKind)
    (hord : rankOrdered l) (hab : a.rank < b.rank) : kindBefore l a b := by
  intro i j hi hj ha hb
  rcases Nat.lt_trichotomy i j with h | h | h
  · exact h
  · exfalso
    subst h
    have hEq : a = b := ha.symm.trans hb
    rw [hEq] at hab
    exact lt_irrefl _ hab
  · exfalso
    have hp := List.pairwise_iff_get.mp hord ⟨j, hj⟩ ⟨i, hi⟩ h
    rw [ha, hb] at hp
    omega

/-- C1: for every valid LaunchContext/BuildLocations pair, in both attach
variants' directive sequences the working-directory directive is strictly
before every source-map directive, every source-map directive is strictly
before any target selection/connection directive, and target
selection/connection is strictly before the process-attach directive. -/
theorem attach_directive_phase_order (ob er wr p u pid : String) :
    (kindBefore (exampleAttachCmds ob p u pid)
        CmdKind.workingDir CmdKind.sourceMap ∧
     kindBefore (exampleAttachCmds ob p u pid)
        CmdKind.sourceMap CmdKind.selectConnect ∧
     kindBefore (exampleAttachCmds ob p u pid)
        CmdKind.selectConnect CmdKind.processAttach) ∧
    (kindBefore (vscodeAttachCmds ob er wr p u pid)
        CmdKind.workingDir CmdKind.sourceMap ∧
     kindBefore (vscodeAttachCmds ob er wr p u pid)
        CmdKind.sourceMap CmdKind.selectConnect ∧
     kindBefore (vscodeAttachCmds ob er wr p u pid)
        CmdKind.selectConnect CmdKind.processAttach) :=
  ⟨⟨kindBefore_of_rankOrdered _ _ _ (rankOrdered_exampleAttach ob p u pid)
      (by decide),
    kindBefore_of_rankOrdered _ _ _ (rankOrdered_exampleAttach ob p u pid)
      (by decide),
    kindBefore_of_rankOrdered _ _ _ (rankOrdered_exampleAttach ob p u pid)
      (by decide)⟩,
   ⟨kindBefore_of_rankOrdered _ _ _ (rankOrdered_vscodeAttach ob er wr p u pid)
      (by decide),
    kindBefore_of_rankOrdered _ _ _ (rankOrdered_vscodeAttach ob er wr p u pid)
      (by decide),
    kindBefore_of_rankOrdered _ _ _ (rankOrdered_vscodeAttach ob er wr p u pid)
      (by decide)⟩⟩

/-- Witness for C1: in the Example sequence for a concrete context, the
working-directory directive (index 0) is strictly before the first
source-map directive (index 1). -/
theorem attach_directive_phase_order_witness : (0 : Nat) < 1 :=
  (attach_directive_phase_order ("/ob") ("/er") ("/ws") ("device") ("UD-1")
      ("777")).1.1 0 1 (by decide) (by decide) (by decide) (by decide)

/-- C2 counterexample: in the vscode attach sequence for a concrete
context, the append source-map directive is issued at index 1 and the
insert-before directive only at index 2, so the insert-before directive is
not issued before the append directive in every emitted sequence. -/
theorem insert_append_issue_order_cex :
    firstIdx isAppendCmd (vscodeAttachCmds ("/ob") ("/er") ("/ws")
        ("iphonesimulator") ("SIM-1") ("4242")) = 1 ∧
    firstIdx isInsertCmd (vscodeAttachCmds ("/ob") ("/er") ("/ws")
        ("iphonesimulator") ("SIM-1") ("4242")) = 2 ∧
    ¬ (firstIdx isInsertCmd (vscodeAttachCmds ("/ob") ("/er") ("/ws")
          ("iphonesimulator") ("SIM-1") ("4242")) <
       firstIdx isAppendCmd (vscodeAttachCmds ("/ob") ("/er") ("/ws")
          ("iphonesimulator") ("SIM-1") ("4242"))) := by
  decide

/-- C2 (amended): in the Example attach sequence and in the
inject-settings sequence the insert-before source-map directive is issued
strictly before the append source-map directive; in the vscode attach
sequence the append directive is issued strictly before the insert-before
directive. -/
theorem insert_append_issue_order (ob er wr p u pid : String) :
    firstIdx isInsertCmd (exampleAttachCmds ob p u pid) <
      firstIdx isAppendCmd (exampleAttachCmds ob p u pid) ∧
    firstIdx isInsertCmd (injectSettingsCmds ob) <
      firstIdx isAppendCmd (injectSettingsCmds ob) ∧
    firstIdx isAppendCmd (vscodeAttachCmds ob er wr p u pid) <
      firstIdx isInsertCmd (vscodeAttachCmds ob er wr p u pid) := by
  refine ⟨?_, ?_, ?_⟩ <;>
    simp [exampleAttachCmds, injectSettingsCmds, vscodeAttachCmds,
      firstIdx, isInsertCmd, isAppendCmd]

/-- C3: for any pre-existing source-map rule list and either order of the
two operations (insert-before at position 0 of the external rule, append
of the general rule), the two orders produce the same final rule list, the
external rule sits at index 0, strictly before the general rule, and any
first-match evaluation that matches the external rule (in particular a
lookup for the `external/` subtree) picks the external rule. -/
theorem external_rule_priority (rules : List SourceMapRule)
    (ext gen : SourceMapRule) (m : SourceMapRule → Bool)
    (hne : ext ≠ gen) (hm : m ext = true) :
    appendRule gen (insertBeforeZero ext rules) =
        insertBeforeZero ext (appendRule gen rules) ∧
    ruleIdx ext (appendRule gen (insertBeforeZero ext rules)) = 0 ∧
    ruleIdx ext (appendRule gen (insertBeforeZero ext rules)) <
        ruleIdx gen (appendRule gen (insertBeforeZero ext rules)) ∧
    (appendRule gen (insertBeforeZero ext rules)).find? m = some ext := by
  have hA : appendRule gen (insertBeforeZero ext rules) =
      ext :: (rules ++ [gen]) := by
    simp [appendRule, insertBeforeZero]
  refine ⟨by simp [appendRule, insertBeforeZero], ?_, ?_, ?_⟩
  · rw [hA]
    simp [ruleIdx]
  · rw [hA]
    simp [ruleIdx, hne]
  · rw [hA]
    exact List.find?_cons_of_pos _ hm

/-- Witness for C3: with one pre-existing rule, the concrete external and
general rules of the Example scripts, and a matcher keyed on the external
rule's from-path, the external rule is at index 0 and wins first-match
evaluation. -/
theorem external_rule_priority_witness :
    ruleIdx (SourceMapRule.mk ("./external/") ("/ob/external/"))
        (appendRule (SourceMapRule.mk ("./") ("/ob/execroot/_main/"))
          (insertBeforeZero
            (SourceMapRule.mk ("./external/") ("/ob/external/"))
            [SourceMapRule.mk ("/pre") ("/existing")])) = 0 ∧
    (appendRule (SourceMapRule.mk ("./") ("/ob/execroot/_main/"))
        (insertBeforeZero (SourceMapRule.mk ("./external/") ("/ob/external/"))
          [SourceMapRule.mk ("/pre") ("/existing")])).find?
        (fun r => r.fromDir == "./external/") =
      some (SourceMapRule.mk ("./external/") ("/ob/external/")) :=
  ⟨(external_rule_priority [SourceMapRule.mk ("/pre") ("/existing")]
      (SourceMapRule.mk ("./external/") ("/ob/external/"))
      (SourceMapRule.mk ("./") ("/ob/execroot/_main/"))
      (fun r => r.fromDir == "./external/") (by decide) (by decide)).2.1,
   (external_rule_priority [SourceMapRule.mk ("/pre") ("/existing")]
      (SourceMapRule.mk ("./external/") ("/ob/external/"))
      (SourceMapRule.mk ("./") ("/ob/execroot/_main/"))
      (fun r => r.fromDir == "./external/") (by decide) (by decide)).2.2.2⟩

/-- C4: if the platform tag is `device`, both attach sequences contain the
device-select directive with the target identifier immediately followed by
the device-scoped attach directive with the pid, and contain no
platform-select or platform-connect directive; for any other tag, both
sequences contain the platform-select directive with that tag, then the
platform-connect directive with the target identifier, then the generic
attach directive with the pid, consecutively. -/
theorem platform_dispatch (ob er wr p u pid : String) :
    (p = "device" →
      adjPair (exampleAttachCmds ob p u pid)
          (Cmd.deviceSelect u) (Cmd.deviceProcessAttach pid) ∧
      (exampleAttachCmds ob p u pid).all
          (fun c => !(isPlatformSelCmd c)) = true ∧
      adjPair (vscodeAttachCmds ob er wr p u pid)
          (Cmd.deviceSelect u) (Cmd.deviceProcessAttach pid) ∧
      (vscodeAttachCmds ob er wr p u pid).all
          (fun c => !(isPlatformSelCmd c)) = true) ∧
    (p ≠ "device" →
      adjTriple (exampleAttachCmds ob p u pid)
          (Cmd.platformSelect p) (Cmd.platformConnect u)
          (Cmd.processAttach pid) ∧
      adjTriple (vscodeAttachCmds ob er wr p u pid)
          (Cmd.platformSelect p) (Cmd.platformConnect u)
          (Cmd.processAttach pid)) := by
  constructor
  · intro h
    subst h
    refine ⟨⟨[Cmd.platformSettingsW (ob ++ "/execroot/_main"),
              Cmd.sourceMapInsertBefore0 ("./external/")
                (ob ++ "/external/"),
              Cmd.sourceMapAppend ("./") (ob ++ "/execroot/_main/")],
             [], ?_⟩, ?_,
            ⟨[Cmd.platformSettingsW er,
              Cmd.sourceMapAppend (".") wr,
              Cmd.sourceMapInsertBefore0 ("./external/")
                (ob ++ "/external/"),
              Cmd.packetTimeout 300],
             [], ?_⟩, ?_⟩
    · simp [exampleAttachCmds]
    · simp [exampleAttachCmds, isPlatformSelCmd]
    · simp [vscodeAttachCmds]
    · simp [vscodeAttachCmds, isPlatformSelCmd]
  · intro h
    refine ⟨⟨[Cmd.platformSettingsW (ob ++ "/execroot/_main"),
              Cmd.sourceMapInsertBefore0 ("./external/")
                (ob ++ "/external/"),
              Cmd.sourceMapAppend ("./") (ob ++ "/execroot/_main/")],
             [], ?_⟩,
            ⟨[Cmd.platformSettingsW er,
              Cmd.sourceMapAppend (".") wr,
              Cmd.sourceMapInsertBefore0 ("./external/")
                (ob ++ "/external/"),
              Cmd.packetTimeout 300],
             [], ?_⟩⟩
    · simp [exampleAttachCmds, h]
    · simp [vscodeAttachCmds, h]

/-- Witness for C4: for a concrete device context, the Example sequence
has the device-select directive immediately followed by the device-scoped
attach directive. -/
theorem platform_dispatch_witness :
    adjPair (exampleAttachCmds ("/ob") ("device") ("UD-1") ("777"))
      (Cmd.deviceSelect ("UD-1")) (Cmd.deviceProcessAttach ("777")) :=
  ((platform_dispatch ("/ob") ("/er") ("/ws") ("device") ("UD-1")
      ("777")).1 rfl).1

/-- C5: when the persisted launch-info file is absent, the inject-settings
script issues zero engine directives, raises no fatal error, and exits
with status zero, whatever the other inputs are. -/
theorem missing_launch_info_noop (outputBase : String) (rec : LaunchRecord)
    (engine : String → SBCommandReturnObject) :
    injectSettingsScript false outputBase rec engine =
      ScriptOutcome.exited 0 [] := by
  simp [injectSettingsScript]

/-- C6: if every directive before some point succeeds and the directive at
that point fails, the directives handed to the engine are exactly the
successful ones plus the failing one — nothing after the failing directive
is issued, and the run does not complete. -/
theorem directive_failure_aborts (engine : String → SBCommandReturnObject)
    (l1 : List Cmd) (c : Cmd) (l2 : List Cmd)
    (h1 : ∀ d ∈ l1, (engine (Cmd.render d)).succeeded = true)
    (h2 : (engine (Cmd.render c)).succeeded = false) :
    runCmds engine (l1 ++ c :: l2) = (l1 ++ [c], false) := by
  induction l1 with
  | nil => simp [runCmds, run_command, h2]
  | cons d rest ih =>
    have hd : (engine (Cmd.render d)).succeeded = true := h1 d (by simp)
    have hrest : ∀ x ∈ rest, (engine (Cmd.render x)).succeeded = true :=
      fun x hx => h1 x (by simp [hx])
    simp [runCmds, run_command, hd, ih hrest]

/-- Witness for C6: an engine that rejects exactly the append source-map
directive of the inject-settings sequence receives the first two
directives and the failing third one, and nothing else. -/
theorem directive_failure_aborts_witness :
    runCmds
      (fun s => SBCommandReturnObject.mk
        (!(s == Cmd.render (Cmd.sourceMapAppend ("./")
            ("/ob/execroot/_main/")))) ("") (""))
      ([Cmd.platformSettingsW ("/ob/execroot/_main"),
        Cmd.sourceMapInsertBefore0 ("./external/") ("/ob/external/")] ++
        Cmd.sourceMapAppend ("./") ("/ob/execroot/_main/") :: []) =
    ([Cmd.platformSettingsW ("/ob/execroot/_main"),
      Cmd.sourceMapInsertBefore0 ("./external/") ("/ob/external/")] ++
      [Cmd.sourceMapAppend ("./") ("/ob/execroot/_main/")], false) :=
  directive_failure_aborts
    (fun s => SBCommandReturnObject.mk
      (!(s == Cmd.render (Cmd.sourceMapAppend ("./")
          ("/ob/execroot/_main/")))) ("") (""))
    [Cmd.platformSettingsW ("/ob/execroot/_main"),
     Cmd.sourceMapInsertBefore0 ("./external/") ("/ob/external/")]
    (Cmd.sourceMapAppend ("./") ("/ob/execroot/_main/")) []
    (by decide) (by decide)

/-- C7 counterexample: for a failing directive whose engine-reported error
text is `boom`, the raised error carries the fixed message, not `boom`;
the engine's text goes to stderr instead. -/
theorem run_command_error_text_cex :
    (run_command ("platform connect SIM-1")
        (SBCommandReturnObject.mk false ("") ("boom"))).raised =
      some runCommandFailMsg ∧
    ¬ ((run_command ("platform connect SIM-1")
        (SBCommandReturnObject.mk false ("") ("boom"))).raised =
      some ("boom")) ∧
    (run_command ("platform connect SIM-1")
        (SBCommandReturnObject.mk false ("") ("boom"))).stderr =
      [("boom")] := by
  decide

/-- C7 (amended): when the engine reports failure for a directive,
`run_command` raises an error carrying the fixed message
`Command failed. See above for any error messages.` and prints the
engine's reported error text to stderr when that text is non-empty; the
engine's text is surfaced on stderr, not inside the raised error. -/
theorem run_command_failure_effect (command : String)
    (result : SBCommandReturnObject) (h : result.succeeded = false) :
    (run_command command result).raised = some runCommandFailMsg ∧
    (result.error ≠ "" →
      (run_command command result).stderr = [result.error]) :=
  ⟨by simp [run_command, h], fun he => by simp [run_command, h, he]⟩

/-- Witness for C7 (amended): with engine error text `warn`, the raised
message is the fixed one and `warn` is printed to stderr. -/
theorem run_command_failure_effect_witness :
    (run_command ("x") (SBCommandReturnObject.mk false ("") ("warn"))).raised =
      some runCommandFailMsg ∧
    (run_command ("x") (SBCommandReturnObject.mk false ("") ("warn"))).stderr =
      [("warn")] :=
  ⟨(run_command_failure_effect ("x")
      (SBCommandReturnObject.mk false ("") ("warn")) (by decide)).1,
   (run_command_failure_effect ("x")
      (SBCommandReturnObject.mk false ("") ("warn")) (by decide)).2
     (by decide)⟩

/-- C8 counterexample: a launch record whose `platform` field is present
but empty is accepted — the loader yields a launch context instead of
failing fast. -/
theorem launch_context_empty_field_cex :
    loadLaunchContext
        (LaunchRecord.mk (some ("")) (some ("UD-1")) (some ("777"))) =
      Except.ok (("", "UD-1", "777")) ∧
    loadedOk (loadLaunchContext
        (LaunchRecord.mk (some ("")) (some ("UD-1")) (some ("777")))) =
      true :=
  ⟨rfl, rfl⟩

/-- C8 (amended): loading the launch context fails fast (KeyError) exactly
when one of the three fields (platform, target identifier, process id) is
absent from the launch metadata; any record with all three fields present
— empty values included — yields a LaunchContext. -/
theorem launch_context_presence (r : LaunchRecord) :
    loadedOk (loadLaunchContext r) =
      (r.platform.isSome && r.udid.isSome && r.pid.isSome) := by
  obtain ⟨p, u, i⟩ := r
  cases p <;> cases u <;> cases i <;> rfl

/-- C9: whenever the persisted pid parses as an integer, the kill script
returns without raising, whatever the host's signal delivery does — every
failure of the kill-signal delivery is swallowed. -/
theorem terminate_swallows_kill_failure (pidField : String)
    (kill : Int → Except String Unit) (pid : Int)
    (h : pyInt pidField = some pid) :
    lldb_kill_app pidField kill = KillOutcome.returned := by
  simp only [lldb_kill_app, h]
  rcases hk : kill pid with _ | _ <;> simp [killAndSwallow, hk]

/-- Witness for C9: pid `777` with a host on which no such process exists
(signal delivery reports an error) — the script still returns. -/
theorem terminate_swallows_kill_failure_witness :
    lldb_kill_app ("777")
        (fun _ => Except.error ("ESRCH: no such process")) =
      KillOutcome.returned :=
  terminate_swallows_kill_failure ("777")
    (fun _ => Except.error ("ESRCH: no such process")) 777 (by decide)

/-- C10: the `int(...)` conversion of the pid field happens before the
exception-swallowing region: for any launch record whose pid value is not
parseable as an integer, the kill script raises instead of returning
silently, whatever the host's signal delivery would do. -/
theorem unparseable_pid_raises (pidField : String)
    (kill : Int → Except String Unit) (h : pyInt pidField = none) :
    lldb_kill_app pidField kill = KillOutcome.raisedValueError := by
  simp [lldb_kill_app, h]

/-- Witness for C10: pid value `not-a-pid` makes the script raise even
though signal delivery itself would have succeeded. -/
theorem unparseable_pid_raises_witness :
    lldb_kill_app ("not-a-pid") (fun _ => Except.ok ()) =
      KillOutcome.raisedValueError :=
  unparseable_pid_raises ("not-a-pid") (fun _ => Except.ok ()) (by decide)
